import Mathlib

/-!
Shallow embedding of the schema-generation and dispatch engine of the
`gptfunctionutil` package (files `converter_core.py`, `convertutil.py`,
`errors.py`, `functionlib.py`).

Python dictionaries with a fixed set of optional keys are modelled as Lean
structures with `Option` fields (`none` = key absent).  Python exceptions are
modelled by the `PyError` inductive; fallible Python code returns
`Except PyError _`.  Python numbers (int and float) are modelled as rationals;
floating-point rounding is outside the model.  Regular-expression matching of
the user-supplied `pattern` constraint (`re.match`) is abstracted as an
explicit `matcher : String → String → Bool` argument threaded through the
validation path.
-/

/-- Result of `datetime.strptime(value, "%Y-%m-%dT%H:%M:%S%z")`:
a naive date-time plus a timezone offset in microseconds (the `%z`
directive admits seconds and a 1-6 digit fraction). -/
structure PyDatetime where
  year : Nat
  month : Nat
  day : Nat
  hour : Nat
  minute : Nat
  second : Nat
  tzus : Int
deriving Repr, DecidableEq

/-- Python runtime values flowing through the dispatch path: the JSON-like
values produced by `json.loads` plus the `datetime` objects produced by the
date-time converter.  `obj` keeps insertion order like a Python dict. -/
inductive JValue where
  | null
  | bool (b : Bool)
  | int (n : Int)
  | num (q : ℚ)
  | str (s : String)
  | list (xs : List JValue)
  | obj (fields : List (String × JValue))
  | dt (d : PyDatetime)
deriving Repr

/-- Numeric view used by Python comparisons and `isinstance(value, (int, float))`:
`bool` is a subclass of `int` in Python, so `True` counts as `1`. -/
def numView : JValue → Option ℚ
  | .bool b => some (if b then 1 else 0)
  | .int n => some (n : ℚ)
  | .num q => some q
  | _ => none

mutual
/-- Python `==` on the modelled values (numeric kinds compare by value,
`True == 1`, `1 == 1.0`). -/
def pyEq : JValue → JValue → Bool
  | a, b =>
    match numView a, numView b with
    | some x, some y => x == y
    | _, _ =>
      match a, b with
      | .null, .null => true
      | .str s, .str t => s == t
      | .list xs, .list ys => pyEqList xs ys
      | .obj xs, .obj ys => pyEqFields xs ys
      | .dt d, .dt e => d == e
      | _, _ => false
  termination_by structural a => a

def pyEqList : List JValue → List JValue → Bool
  | [], [] => true
  | a :: as_, b :: bs => pyEq a b && pyEqList as_ bs
  | _, _ => false
  termination_by structural l => l

def pyEqFields : List (String × JValue) → List (String × JValue) → Bool
  | [], [] => true
  | (k, a) :: as_, (l, b) :: bs => k == l && pyEq a b && pyEqFields as_ bs
  | _, _ => false
  termination_by structural l => l
end

/-- `len(set(value)) == len(value)`: all elements pairwise distinct
(under Python equality). -/
def allDistinct : List JValue → Bool
  | [] => true
  | x :: xs => !(xs.any (pyEq x)) && allDistinct xs

/-- An element that Python can put into a `set` (hashable); `list` and `dict`
elements raise `TypeError` inside `set(value)`. -/
def isHashable : JValue → Bool
  | .list _ => false
  | .obj _ => false
  | _ => true

/-- The schema fragment built for one parameter: a JSON-compatible dict with
a fixed set of optional keys (`none` = key absent). -/
structure SchemaFragment where
  description : Option String := none
  type : Option String := none
  minLength : Option Int := none
  maxLength : Option Int := none
  pattern : Option String := none
  format : Option String := none
  minimum : Option ℚ := none
  maximum : Option ℚ := none
  exclusiveMinimum : Option ℚ := none
  exclusiveMaximum : Option ℚ := none
  multipleOf : Option ℚ := none
  enum : Option (List String) := none
  items : Option (Option String) := none
  minItems : Option Int := none
  maxItems : Option Int := none
  uniqueItems : Option Bool := none
deriving Repr

/-- The per-parameter constraint metadata supplied by the `LibParam` /
`LibParamSpec` decorators (the `dec` dictionary), again with `none` = key
absent. -/
structure DecSpec where
  description : Option String := none
  minLength : Option Int := none
  maxLength : Option Int := none
  pattern : Option String := none
  minimum : Option ℚ := none
  maximum : Option ℚ := none
  exclusiveMinimum : Option ℚ := none
  exclusiveMaximum : Option ℚ := none
  multipleOf : Option ℚ := none
  minItems : Option Int := none
  maxItems : Option Int := none
  uniqueItems : Option Bool := none
deriving Repr

/-- Python exceptions reachable in the modelled code.  The first seven
constructors are the `GPTLibError` taxonomy of `errors.py` (the
`ConversionFromError` model keeps the `param_name`, `value` and message
attributes; the stored schema attribute is omitted).  The rest are built-in
Python exceptions. -/
inductive PyError where
  | functionNotFound (function_name : String) (arguments : Option JValue)
  | invalidArgType (msg : String)
  | argDecode (msg : String)
  | invalidFuncArg (msg : String)
  | conversionTo (msg : String)
  | conversionAdd (msg : String)
  | conversionFrom (param_name : String) (value : JValue) (msg : String)
  | valueError (msg : String)
  | typeError (msg : String)
  | attributeError (msg : String)
  | keyError (k : String)
  | indexError (msg : String)
  | zeroDivisionError (msg : String)
  | notImplementedError (msg : String)
deriving Repr

/-- `isinstance(e, GPTLibError)`: which exceptions the dispatcher's
`except GPTLibError` clause catches. -/
def isGPTLibError : PyError → Bool
  | .functionNotFound _ _ => true
  | .invalidArgType _ => true
  | .argDecode _ => true
  | .invalidFuncArg _ => true
  | .conversionTo _ => true
  | .conversionAdd _ => true
  | .conversionFrom _ _ _ => true
  | _ => false

/-- `str(e)` for the exceptions the dispatcher stringifies (only the
`GPTLibError` branch of the dispatcher uses this). -/
def pyStrOfError : PyError → String
  | .functionNotFound n _ => "Function \x27" ++ n ++ "\x27 not found."
  | .invalidArgType m => m
  | .argDecode m => m
  | .invalidFuncArg m => m
  | .conversionTo m => m
  | .conversionAdd m => m
  | .conversionFrom p v m =>
      m ++ " Param:" ++ p ++ ". Value" ++ reprStr v ++ "."
  | .valueError m => m
  | .typeError m => m
  | .attributeError m => m
  | .keyError k => "\x27" ++ k ++ "\x27"
  | .indexError m => m
  | .zeroDivisionError m => m
  | .notImplementedError m => m

/-- The default value recorded for a parameter by `inspect.signature`.
The code only distinguishes "no default" (`inspect.Parameter.empty`),
"default is literally `None`" and "some other default";
the default value itself is never used, so it is not stored. -/
inductive PDefault where
  | empty
  | pynone
  | given
deriving Repr, DecidableEq

/-- A parameter's declared type annotation, as far as the code inspects it
(`__name__`, `__origin__`, `__args__`). -/
inductive Annot where
  | empty
  | named (n : String)
  | listOf (elem : Annot)
  | literalOf (vals : List String)
deriving Repr, DecidableEq

/-- `param.annotation.__name__` (or the annotation itself when it is a
string): the key looked up in the converter registry. -/
def annotTypename : Annot → String
  | .empty => "_empty"
  | .named n => n
  | .listOf _ => "List"
  | .literalOf _ => "Literal"

/-- Model of `inspect.Parameter`: the two attributes the code reads. -/
structure Param where
  annot : Annot
  default : PDefault
deriving Repr

/-! ## Converters (`converter_core.py`) -/

/-- `BooleanConverter.to_schema`. -/
def BooleanConverter_to_schema (_param : Param) (_dec : DecSpec) : SchemaFragment :=
  { type := some "boolean" }

/-- `BooleanConverter.from_schema`. -/
def BooleanConverter_from_schema (value : JValue) (_schema : SchemaFragment) :
    Except PyError JValue :=
  match value with
  | .bool b => .ok (.bool b)
  | _ => .error (.valueError "Value is not of type \x27bool\x27.")

/-- `StringConverter.to_schema`: length defaults of 0/255 are attached when
the key is in `dec` or when `param.default is None`. -/
def StringConverter_to_schema (param : Param) (dec : DecSpec) : SchemaFragment :=
  let schema : SchemaFragment := { type := some "string" }
  let schema :=
    if dec.minLength.isSome ∨ param.default = PDefault.pynone then
      { schema with minLength := some (dec.minLength.getD 0) }
    else schema
  let schema :=
    if dec.maxLength.isSome ∨ param.default = PDefault.pynone then
      { schema with maxLength := some (dec.maxLength.getD 255) }
    else schema
  let schema :=
    match dec.pattern with
    | some p => { schema with pattern := some p }
    | none => schema
  schema

/-- `'key' in schema and <test on schema[key]>`. -/
def optTest (o : Option α) (p : α → Bool) : Bool :=
  match o with
  | some m => p m
  | none => false

/-- `StringConverter.from_schema`; `matcher` abstracts `re.match`. -/
def StringConverter_from_schema (matcher : String → String → Bool)
    (value : JValue) (schema : SchemaFragment) : Except PyError JValue :=
  match value with
  | .str s =>
    if optTest schema.minLength (fun m => (s.length : Int) < m) then
      .error (.valueError "Value does not meet the minLength constraint.")
    else if optTest schema.maxLength (fun m => (s.length : Int) > m) then
      .error (.valueError "Value exceeds the maxLength constraint.")
    else if optTest schema.pattern (fun p => !(matcher p s)) then
      .error (.valueError "Value does not match the specified pattern.")
    else .ok (.str s)
  | _ => .error (.valueError "Value is not of type \x27str\x27.")

/-- Days in a month, as validated by the `datetime` constructor reached from
`datetime.strptime`. -/
def daysInMonth (year month : Nat) : Nat :=
  if month = 2 then
    if year % 4 = 0 ∧ (year % 100 ≠ 0 ∨ year % 400 = 0) then 29 else 28
  else if month = 4 ∨ month = 6 ∨ month = 9 ∨ month = 11 then 30
  else 31

def isDigit (c : Char) : Bool := c.isDigit

def digitsToNat (cs : List Char) : Nat :=
  cs.foldl (fun acc c => acc * 10 + (c.toNat - 48)) 0

/-- The seconds-and-fraction tail of the `%z` directive, after the required
minutes: empty, or `[:]SS` (colon use consistent with the minutes separator,
else `ValueError`), optionally followed by `.` and 1-6 fraction digits.
Returns (seconds, fraction microseconds). -/
def parseTzSec (col : Bool) : List Char → Option (Nat × Nat)
  | [] => some (0, 0)
  | l =>
    let body : List Char → Option (Nat × Nat) := fun l2 =>
      match l2 with
      | s1 :: s2 :: rest =>
        if isDigit s1 ∧ isDigit s2 ∧ digitsToNat [s1] ≤ 5 then
          match rest with
          | [] => some (digitsToNat [s1, s2], 0)
          | '.' :: frac =>
            if frac ≠ [] ∧ frac.length ≤ 6 ∧ frac.all isDigit then
              some (digitsToNat [s1, s2],
                digitsToNat frac * 10 ^ (6 - frac.length))
            else none
          | _ => none
        else none
      | _ => none
    match col, l with
    | true, ':' :: rest => body rest
    | true, _ => none
    | false, ':' :: _ => none
    | false, rest => body rest

/-- The `%z` directive: `(?-i:Z)`, or a sign, two hour digits, optionally a
colon, two minute digits `[0-5]\d`, and an optional seconds/fraction tail;
the whole suffix must be consumed.  The resulting offset (in microseconds)
must be strictly smaller than 24 hours in magnitude, as enforced by the
`datetime.timezone` constructor. -/
def parseTz : List Char → Option Int
  | ['Z'] => some 0
  | c :: rest =>
    let sign : Int := if c = '+' then 1 else if c = '-' then -1 else 0
    if sign = 0 then none
    else
      match rest with
      | h1 :: h2 :: rest2 =>
        if isDigit h1 ∧ isDigit h2 then
          let hh := digitsToNat [h1, h2]
          let colrest : Bool × List Char :=
            match rest2 with
            | ':' :: r => (true, r)
            | r => (false, r)
          match colrest.2 with
          | m1 :: m2 :: rest4 =>
            if isDigit m1 ∧ isDigit m2 ∧ digitsToNat [m1] ≤ 5 then
              let mm := digitsToNat [m1, m2]
              match parseTzSec colrest.1 rest4 with
              | some (ss, us) =>
                let total : Int :=
                  (((hh * 3600 + mm * 60 + ss) * 1000000 + us : Nat) : Int)
                if total < 86400000000 then some (sign * total) else none
              | none => none
            else none
          | _ => none
        else none
      | _ => none
  | [] => none

/-- One numeric field of the strptime regex, e.g. `2[0-3]|[0-1]\d|\d`:
the two-digit alternatives are tried first (encoded by the set of values
they denote), then the one-digit alternative; the literal separator that
follows each field makes this equivalent to the regex backtracking. -/
def parseField (two_ok one_ok : Nat → Bool) : List Char → Option (Nat × List Char)
  | c1 :: c2 :: rest =>
    if isDigit c1 ∧ isDigit c2 ∧ two_ok (digitsToNat [c1, c2]) then
      some (digitsToNat [c1, c2], rest)
    else if isDigit c1 ∧ one_ok (digitsToNat [c1]) then
      some (digitsToNat [c1], c2 :: rest)
    else none
  | [c1] =>
    if isDigit c1 ∧ one_ok (digitsToNat [c1]) then some (digitsToNat [c1], [])
    else none
  | [] => none

/-- The `%d` field `3[0-1]|[1-2]\d|0[1-9]|[1-9]| [1-9]`: the day may also be
space-padded. -/
def parseDay : List Char → Option (Nat × List Char)
  | ' ' :: c2 :: rest =>
    if isDigit c2 ∧ digitsToNat [c2] ≥ 1 then some (digitsToNat [c2], rest)
    else none
  | l => parseField (fun v => 1 ≤ v ∧ v ≤ 31) (fun v => 1 ≤ v ∧ v ≤ 9) l

/-- The `%Y` field `\d\d\d\d`: exactly four digits. -/
def parseYear : List Char → Option (Nat × List Char)
  | a :: b :: c :: d :: rest =>
    if isDigit a ∧ isDigit b ∧ isDigit c ∧ isDigit d then
      some (digitsToNat [a, b, c, d], rest)
    else none
  | _ => none

/-- A literal character of the format string (strptime compiles the whole
pattern with `re.IGNORECASE`, so the literal `T` also matches `t`). -/
def expectChar (c : Char) : List Char → Option (List Char)
  | x :: rest => if x = c ∨ (c = 'T' ∧ x = 't') then some rest else none
  | [] => none

/-- `datetime.strptime(value, "%Y-%m-%dT%H:%M:%S%z")`: the field regexes of
`_strptime` (month `1[0-2]|0[1-9]|[1-9]`, day as in `parseDay`, hour
`2[0-3]|[0-1]\d|\d`, minute `[0-5]\d|\d`, second `6[0-1]|[0-5]\d|\d`)
joined by the literal separators, a mandatory `%z` suffix consuming the rest
of the string, and the `datetime` constructor's checks (year ≥ 1, calendar
day validity, second ≤ 59 — so the leap seconds 60/61 admitted by the `%S`
regex are still rejected).  The several distinct `ValueError` messages of
the source are collapsed into parse failure. -/
def parseDatetime (cs : List Char) : Option PyDatetime :=
  match parseYear cs with
  | none => none
  | some (year, r1) =>
    match expectChar '-' r1 with
    | none => none
    | some r2 =>
      match parseField (fun v => 1 ≤ v ∧ v ≤ 12) (fun v => 1 ≤ v ∧ v ≤ 9) r2 with
      | none => none
      | some (month, r3) =>
        match expectChar '-' r3 with
        | none => none
        | some r4 =>
          match parseDay r4 with
          | none => none
          | some (day, r5) =>
            match expectChar 'T' r5 with
            | none => none
            | some r6 =>
              match parseField (fun v => v ≤ 23) (fun v => v ≤ 9) r6 with
              | none => none
              | some (hour, r7) =>
                match expectChar ':' r7 with
                | none => none
                | some r8 =>
                  match parseField (fun v => v ≤ 59) (fun v => v ≤ 9) r8 with
                  | none => none
                  | some (minute, r9) =>
                    match expectChar ':' r9 with
                    | none => none
                    | some r10 =>
                      match parseField (fun v => v ≤ 61) (fun v => v ≤ 9) r10 with
                      | none => none
                      | some (second, r11) =>
                        match parseTz r11 with
                        | none => none
                        | some off =>
                          if 1 ≤ year ∧ day ≤ daysInMonth year month ∧
                              second ≤ 59 then
                            some ⟨year, month, day, hour, minute, second, off⟩
                          else none

/-- `DatetimeConverter.to_schema`: the string schema plus a `date-time`
format key. -/
def DatetimeConverter_to_schema (param : Param) (dec : DecSpec) : SchemaFragment :=
  { StringConverter_to_schema param dec with format := some "date-time" }

/-- `DatetimeConverter.from_schema`: string validation, then `strptime`. -/
def DatetimeConverter_from_schema (matcher : String → String → Bool)
    (value : JValue) (schema : SchemaFragment) : Except PyError JValue := do
  let v ← StringConverter_from_schema matcher value schema
  match schema.format with
  | none => .error (.valueError "No format found.")
  | some f =>
    if f = "date-time" then
      match v with
      | .str s =>
        match parseDatetime s.data with
        | some d => .ok (.dt d)
        | none =>
          .error (.valueError "time data does not match format %Y-%m-%dT%H:%M:%S%z")
      | _ => .error (.valueError "strptime argument must be str")
    else .error (.valueError "Format is not \x22date-time\x22 ")

/-- Python `%` on numbers: `a - b * floor(a / b)` (sign of the divisor). -/
def qmod (a b : ℚ) : ℚ := a - b * (Rat.floor (a / b) : ℚ)

/-- `NumericConverter.to_schema`. -/
def NumericConverter_to_schema (param : Param) (dec : DecSpec) : SchemaFragment :=
  { minimum := dec.minimum
    maximum := dec.maximum
    exclusiveMinimum := dec.exclusiveMinimum
    exclusiveMaximum := dec.exclusiveMaximum
    multipleOf := dec.multipleOf
    type := if Annot.named "int" = param.annot then some "integer" else some "number" }

/-- `NumericConverter.from_schema` (`bool` passes the
`isinstance(value, (int, float))` gate because Python `bool` is an `int`). -/
def NumericConverter_from_schema (value : JValue) (schema : SchemaFragment) :
    Except PyError JValue :=
  match numView value with
  | none => .error (.valueError "Value is not of type \x27int\x27 or \x27float\x27.")
  | some q =>
    if optTest schema.minimum (fun m => q < m) then
      .error (.valueError "Value is below the minimum constraint.")
    else if optTest schema.maximum (fun m => q > m) then
      .error (.valueError "Value exceeds the maximum constraint.")
    else if optTest schema.exclusiveMinimum (fun m => q ≤ m) then
      .error (.valueError "Value does not meet the exclusiveMinimum constraint.")
    else if optTest schema.exclusiveMaximum (fun m => q ≥ m) then
      .error (.valueError "Value does not meet the exclusiveMaximum constraint.")
    else
      match schema.multipleOf with
      | some m =>
        if m = 0 then .error (.zeroDivisionError "modulo by zero")
        else if qmod q m ≠ 0 then
          .error (.valueError "Value does not meet the multipleOf constraint.")
        else .ok value
      | none => .ok value

/-- `ArrayConverter._get_type_schema` (`none` models the empty dict `{}`). -/
def get_type_schema : Annot → Option String
  | .named "int" => some "integer"
  | .named "float" => some "number"
  | .named "str" => some "string"
  | .named "bool" => some "boolean"
  | _ => none

/-- `ArrayConverter.to_schema`.  The `typing.Tuple` branch of the source is
never taken (`Tuple[...] == Tuple` and `Tuple[...].__origin__ == Tuple` are
both false for parameterized annotations), so only the `list` branch is
modelled. -/
def ArrayConverter_to_schema (param : Param) (dec : DecSpec) : SchemaFragment :=
  let schema : SchemaFragment := { type := some "array" }
  let schema :=
    match param.annot with
    | .listOf e => { schema with items := some (get_type_schema e) }
    | _ => schema
  { schema with
    minItems := dec.minItems
    maxItems := dec.maxItems
    uniqueItems := dec.uniqueItems }

/-- `ArrayConverter.from_schema`. -/
def ArrayConverter_from_schema (value : JValue) (schema : SchemaFragment) :
    Except PyError JValue :=
  match value with
  | .list xs =>
    if optTest schema.minItems (fun m => (xs.length : Int) < m) then
      .error (.valueError "Value does not meet the minItems constraint.")
    else if optTest schema.maxItems (fun m => (xs.length : Int) > m) then
      .error (.valueError "Value exceeds the maxItems constraint.")
    else if schema.uniqueItems = some true then
      if xs.any (fun x => !(isHashable x)) then
        .error (.typeError "unhashable type")
      else if !(allDistinct xs) then
        .error (.valueError "Value does not meet the uniqueItems constraint.")
      else .ok (.list xs)
    else .ok (.list xs)
  | _ => .error (.valueError "Value is not of type \x27list\x27.")

/-- `dict.update(dec)` as executed by `LiteralConverter.to_schema`:
every key present in the decorator dict overwrites the fragment. -/
def updateFragment (schema : SchemaFragment) (dec : DecSpec) : SchemaFragment :=
  { schema with
    description := dec.description.orElse (fun _ => schema.description)
    minLength := dec.minLength.orElse (fun _ => schema.minLength)
    maxLength := dec.maxLength.orElse (fun _ => schema.maxLength)
    pattern := dec.pattern.orElse (fun _ => schema.pattern)
    minimum := dec.minimum.orElse (fun _ => schema.minimum)
    maximum := dec.maximum.orElse (fun _ => schema.maximum)
    exclusiveMinimum := dec.exclusiveMinimum.orElse (fun _ => schema.exclusiveMinimum)
    exclusiveMaximum := dec.exclusiveMaximum.orElse (fun _ => schema.exclusiveMaximum)
    multipleOf := dec.multipleOf.orElse (fun _ => schema.multipleOf)
    minItems := dec.minItems.orElse (fun _ => schema.minItems)
    maxItems := dec.maxItems.orElse (fun _ => schema.maxItems)
    uniqueItems := dec.uniqueItems.orElse (fun _ => schema.uniqueItems) }

/-- `LiteralConverter.to_schema`. -/
def LiteralConverter_to_schema (param : Param) (dec : DecSpec) : SchemaFragment :=
  let vals := match param.annot with
    | .literalOf vs => vs
    | _ => []
  updateFragment { type := some "string", enum := some vals } dec

/-- `LiteralConverter.from_schema`. -/
def LiteralConverter_from_schema (value : JValue) (schema : SchemaFragment) :
    Except PyError JValue :=
  match schema.enum with
  | none => .error (.keyError "enum")
  | some es =>
    match value with
    | .str s =>
      if es.contains s then .ok (.str s)
      else .error (.valueError ("Value " ++ s ++ " does not match any of the literal values."))
    | _ => .error (.valueError "Value does not match any of the literal values.")

/-! ## Converter registry (`convertutil.py`) -/

/-- The built-in converter classes. -/
inductive ConverterKind where
  | stringC
  | numericC
  | booleanC
  | datetimeC
  | literalC
  | arrayC
deriving Repr, DecidableEq

/-- The seed of the `substitutions` registry. -/
def builtinSubstitutions : List (String × ConverterKind) :=
  [("str", .stringC), ("int", .numericC), ("bool", .booleanC),
   ("float", .numericC), ("datetime", .datetimeC), ("Literal", .literalC),
   ("List", .arrayC)]

/-- `add_converter`: extends the registry, or raises `ConversionAddError`
when the type name is already present.  The registry is modelled
functionally (the source mutates the module-level dict); it is polymorphic
in the converter-class type, since custom classes are arbitrary. -/
def add_converter (substitutions : List (String × α)) (typename : String)
    (converterclass : α) : Except PyError (List (String × α)) :=
  if substitutions.any (fun e => e.1 = typename) then
    .error (.conversionAdd (typename ++ " already in dictionary!"))
  else
    .ok (substitutions ++ [(typename, converterclass)])

/-- Dispatch of `converter().to_schema(param, decs)` over the built-in
converter classes. -/
def conv_to_schema : ConverterKind → Param → DecSpec → SchemaFragment
  | .stringC, p, d => StringConverter_to_schema p d
  | .numericC, p, d => NumericConverter_to_schema p d
  | .booleanC, p, d => BooleanConverter_to_schema p d
  | .datetimeC, p, d => DatetimeConverter_to_schema p d
  | .literalC, p, d => LiteralConverter_to_schema p d
  | .arrayC, p, d => ArrayConverter_to_schema p d

/-- Dispatch of `converter().from_schema(value, schema)` over the built-in
converter classes. -/
def conv_from_schema (matcher : String → String → Bool) :
    ConverterKind → JValue → SchemaFragment → Except PyError JValue
  | .stringC, v, s => StringConverter_from_schema matcher v s
  | .numericC, v, s => NumericConverter_from_schema v s
  | .booleanC, v, s => BooleanConverter_from_schema v s
  | .datetimeC, v, s => DatetimeConverter_from_schema matcher v s
  | .literalC, v, s => LiteralConverter_from_schema v s
  | .arrayC, v, s => ArrayConverter_from_schema v s

/-- The value attached to one parameter name by the decorators: `LibParam`
attaches a plain description string, `LibParamSpec` a dictionary. -/
inductive DecV where
  | s (v : String)
  | d (v : DecSpec)
deriving Repr

/-- `decs = {'description': dec} if isinstance(dec, str) else dec`. -/
def toDecSpec : DecV → DecSpec
  | .s v => { description := some v }
  | .d v => v

/-- Association-list lookup (Python dict `.get`). -/
def alookup (l : List (String × α)) (k : String) : Option α :=
  match l.find? (fun e => e.1 = k) with
  | some e => some e.2
  | none => none

/-- `ConvertStatic.parameter_into_schema`: resolve the parameter's type name
in the registry and build its schema fragment; an unresolved type name is
skipped (`None, None`).  For the built-in converters `to_schema` never
returns `None`, so the `ConversionToError` branch of the source is
unreachable here. -/
def parameter_into_schema (registry : List (String × ConverterKind))
    (_param_name : String) (param : Param) (dec : DecV) :
    Option (SchemaFragment × ConverterKind) :=
  let decs := toDecSpec dec
  let typename := annotTypename param.annot
  match alookup registry typename with
  | none => none
  | some converter =>
    let descval : Option String :=
      match decs.description with
      | some d => if d = "" then none else some d
      | none => none
    let mod := conv_to_schema converter param decs
    let param_info :=
      { mod with description := mod.description.orElse (fun _ => descval) }
    some (param_info, converter)

/-! ## Command descriptor (`functionlib.py`, class `LibCommand`) -/

/-- The `parameters` value of a function schema document. -/
structure ParamsObject where
  type : String
  properties : List (String × SchemaFragment)
  required : List String
deriving Repr

/-- A command's full schema document (`function_schema`).  The `parameters`
key is optional to mirror `schema.get("parameters", None)`; the `LibCommand`
constructor always sets it. -/
structure FunctionSchema where
  name : String
  description : String
  parameters : Option ParamsObject := none
  strict : Bool := false
deriving Repr

/-- The loop body of `LibCommand.param_iterate` over the signature's
parameters, producing (properties, required, param_converters). -/
def param_iterate_go (registry : List (String × ConverterKind))
    (decorators : List (String × DecV)) (required_forced : List String) :
    List (String × Param) →
    List (String × SchemaFragment) × List String × List (String × ConverterKind)
  | [] => ([], [], [])
  | (param_name, param) :: rest =>
    let decs := (alookup decorators param_name).getD (.s "")
    let tail := param_iterate_go registry decorators required_forced rest
    match parameter_into_schema registry param_name param decs with
    | some (param_info, converter) =>
      ((param_name, param_info) :: tail.1,
       (if param.default = PDefault.empty ∨ param_name ∈ required_forced then
          param_name :: tail.2.1
        else tail.2.1),
       (param_name, converter) :: tail.2.2)
    | none => tail

/-- `LibCommand.param_iterate`: when the wrapped callable has no
`parameter_decorators` attribute, `paramdict` stays empty. -/
def param_iterate (registry : List (String × ConverterKind))
    (params : List (String × Param))
    (param_decorators : Option (List (String × DecV)))
    (required_forced : List String) :
    List (String × SchemaFragment) × List String × List (String × ConverterKind) :=
  match param_decorators with
  | none => ([], [], [])
  | some decorators => param_iterate_go registry decorators required_forced params

/-- A registered command (`LibCommand`).  The wrapped handler, its sync
stand-in and its async stand-in are modelled as functions from the keyword
arguments to a result. -/
structure LibCommand where
  command : List (String × JValue) → Except PyError JValue
  syncr : List (String × JValue) → Except PyError JValue
  asyncr : List (String × JValue) → Except PyError JValue
  function_name : String
  comm_type : String
  function_schema : FunctionSchema
  required : List String
  param_converters : List (String × ConverterKind)
  enabled : Bool
  force_words : List String
  strict : Bool

/-- `sync_not_implemented`. -/
def sync_not_implemented : List (String × JValue) → Except PyError JValue :=
  fun _ => .error (.notImplementedError "Sync method not added.")

/-- `async_not_implemented`. -/
def async_not_implemented : List (String × JValue) → Except PyError JValue :=
  fun _ => .error (.notImplementedError "Async method not added.")

/-- `LibCommand.__init__`: classify the callable, build the schema document
via `param_iterate`, record metadata.  `iscoroutine` models
`inspect.iscoroutinefunction(func)`; `params` and `param_decorators` model
`inspect.signature(func).parameters` and `func.parameter_decorators`. -/
def mkLibCommand (registry : List (String × ConverterKind))
    (func : List (String × JValue) → Except PyError JValue) (iscoroutine : Bool)
    (params : List (String × Param))
    (param_decorators : Option (List (String × DecV)))
    (name description : String) (required : List String)
    (force_words : List String) (enabled strict : Bool) : LibCommand :=
  let out := param_iterate registry params param_decorators required
  { command := func
    syncr := if iscoroutine then sync_not_implemented else func
    asyncr := if iscoroutine then func else async_not_implemented
    function_name := name
    comm_type := if iscoroutine then "coroutine" else "callable"
    function_schema :=
      { name := name
        description := description
        parameters := some { type := "object", properties := out.1, required := out.2.1 }
        strict := strict }
    required := required
    param_converters := out.2.2
    enabled := enabled
    force_words := force_words
    strict := strict }

/-! ## Force-word matching (`LibCommand.check_force`) -/

/-- A regex word character (`\w`, ASCII part). -/
def isWordChar (c : Char) : Bool := c.isAlphanum || c = '_'

/-- Whether the character at index `i` (if any) is a word character. -/
def wordAt (cs : List Char) (i : Nat) : Bool :=
  match cs.get? i with
  | some c => isWordChar c
  | none => false

/-- The regex word boundary `\b` at index `i`: exactly one of the adjacent
positions holds a word character. -/
def boundaryAt (cs : List Char) (i : Nat) : Bool :=
  (match i with
   | 0 => false
   | j + 1 => wordAt cs j) != wordAt cs i

/-- Case-folded character list of a string (models `re.IGNORECASE`, ASCII). -/
def lcs (s : String) : List Char := s.data.map Char.toLower

/-- `regex.search` for the pattern `\b(?:phrase)\b` over a case-folded text:
some start position carries the phrase with word boundaries on both sides. -/
def searchWordBounded (cs ps : List Char) : Bool :=
  (List.range (cs.length + 1)).any fun i =>
    ps.isPrefixOf (cs.drop i) && boundaryAt cs i && boundaryAt cs (i + ps.length)

/-- `LibCommand.check_force`: the compiled pattern is
`\b(?:escaped force words, alternated)\b` with `re.IGNORECASE`; searching it
succeeds iff some force word occurs with word boundaries. -/
def check_force (cmd : LibCommand) (query : String) : Bool :=
  if cmd.force_words ≠ [] then
    cmd.force_words.any fun w => searchWordBounded (lcs query) (lcs w)
  else false

/-! ## Library registry (`GPTFunctionLibrary`) -/

/-- The tool envelope `{type: "function", function: schema}`. -/
structure ToolWrapped where
  type : String
  function : FunctionSchema
deriving Repr

/-- A library instance: `FunctionDict` in insertion order, plus the
expression-evaluation switch.  `exprRewriter` stands for the sympy-based
rewrite applied by `expression_match`; it is only reached when
`do_expression` is true (the constructor default is false). -/
structure GPTFunctionLibrary where
  FunctionDict : List (String × LibCommand)
  do_expression : Bool := false
  exprRewriter : List Char → List Char := id

/-- `GPTFunctionLibrary.force_word_check`: first command whose
`check_force` matches, wrapped as a one-element tool list. -/
def force_word_check (lib : GPTFunctionLibrary) (query : String) :
    Option (List ToolWrapped) :=
  go lib.FunctionDict
where
  go : List (String × LibCommand) → Option (List ToolWrapped)
  | [] => none
  | (_, comm) :: rest =>
    if check_force comm query then
      some [{ type := "function", function := comm.function_schema }]
    else go rest

/-- `GPTFunctionLibrary.get_schema`.  The guard
`schema.get("parameters", None) != None` is the `parameters.isSome` test. -/
def get_schema (lib : GPTFunctionLibrary) : List FunctionSchema :=
  go lib.FunctionDict
where
  go : List (String × LibCommand) → List FunctionSchema
  | [] => []
  | (_, libmethod) :: rest =>
    let schema : Option FunctionSchema :=
      if libmethod.enabled then some libmethod.function_schema else none
    match schema with
    | some s => if s.parameters.isSome then s :: go rest else go rest
    | none => go rest

/-- `GPTFunctionLibrary.get_tool_schema`: same filter, wrapped in the tool
envelope. -/
def get_tool_schema (lib : GPTFunctionLibrary) : List ToolWrapped :=
  go lib.FunctionDict
where
  go : List (String × LibCommand) → List ToolWrapped
  | [] => []
  | (_, libmethod) :: rest =>
    let schema : Option FunctionSchema :=
      if libmethod.enabled then some libmethod.function_schema else none
    match schema with
    | some s =>
      if s.parameters.isSome then
        { type := "function", function := s } :: go rest
      else go rest
    | none => go rest

/-! ## Call parser (`parse_name_args` and its repair steps) -/

/-- The scan of Python `str.replace` for a non-empty needle `o :: os`
(fuelled; each step consumes at least one character). -/
def pyReplaceGo (o : Char) (os new : List Char) : Nat → List Char → List Char
  | 0, l => l
  | _ + 1, [] => []
  | fuel + 1, c :: rest =>
    if (o :: os).isPrefixOf (c :: rest) then
      new ++ pyReplaceGo o os new fuel (List.drop os.length rest)
    else
      c :: pyReplaceGo o os new fuel rest

/-- Python `str.replace(old, new)` (all non-overlapping occurrences,
left to right), on character lists. -/
def pyReplace (cs old new : List Char) : List Char :=
  match old with
  | [] => cs
  | o :: os => pyReplaceGo o os new cs.length cs

/-- Python `\s`: a whitespace character (ASCII part). -/
def isPySpace (c : Char) : Bool :=
  c = ' ' ∨ c = '\t' ∨ c = '\n' ∨ c = '\r' ∨ c = '\x0b' ∨ c = '\x0c'

/-- The lookbehind `(?<=:\s\")` of the quote-escape repair regex at
position `i`. -/
def qfixLookbehind (cs : List Char) (i : Nat) : Bool :=
  match i with
  | j + 1 =>
    match j with
    | k + 1 =>
      match k with
      | l + 1 =>
        (cs.get? l = some ':') && optTest (cs.get? k) isPySpace &&
          (cs.get? j = some '"')
      | 0 => false
    | 0 => false
  | 0 => false

/-- The lookahead `(?=\"(?:,|\s*\}))` at position `j`: a quote followed by a
comma, or by whitespace and a closing brace. -/
def qfixLookahead (cs : List Char) (j : Nat) : Bool :=
  cs.get? j = some '"' &&
    (cs.get? (j + 1) = some ',' || tailBrace (cs.drop (j + 1)))
where
  tailBrace : List Char → Bool
  | [] => false
  | c :: rest => if c = '}' then true else if isPySpace c then tailBrace rest else false

/-- The shortest span `[i, j)` admitted by the lazy `(.*?)`: no newline
inside, and the lookahead holds at `j`.  Scans `j = i, i+1, ...`. -/
def qfixLazyEnd (cs : List Char) (i : Nat) : Option Nat :=
  go i (cs.length + 1 - i)
where
  go (j fuel : Nat) : Option Nat :=
    match fuel with
    | 0 => none
    | fuel + 1 =>
      if j > cs.length then none
      else if qfixLookahead cs j then some j
      else
        match cs.get? j with
        | some '\n' => none
        | some _ => go (j + 1) fuel
        | none => none

/-- Replacement text for one matched span: each `"` becomes `\"`. -/
def qfixEscape (span : List Char) : List Char :=
  span.flatMap fun c => if c = '"' then ['\\', '"'] else [c]

/-- `re.sub` scan for the quote-escape repair: at each position with the
lookbehind satisfied, replace the shortest lookahead-terminated span;
an empty match copies the current character and advances (Python ≥ 3.7
empty-match semantics). -/
def qfixGo (cs : List Char) : Nat → Nat → List Char
  | _, 0 => []
  | i, fuel + 1 =>
    if i ≥ cs.length then []
    else
      let step := (cs.drop i).take 1
      if qfixLookbehind cs i then
        match qfixLazyEnd cs i with
        | some j =>
          if j > i then
            qfixEscape ((cs.drop i).take (j - i)) ++ qfixGo cs j fuel
          else step ++ qfixGo cs (i + 1) fuel
        | none => step ++ qfixGo cs (i + 1) fuel
      else step ++ qfixGo cs (i + 1) fuel

/-- The quote-escape repair
`re.sub(r'(?<=:\s\")(.*?)(?=\"(?:,|\s*\}))', escape, s)`. -/
def quoteEscapeFix (cs : List Char) : List Char :=
  qfixGo cs 0 (cs.length + 1)

/-- `GPTFunctionLibrary.expression_match`: the sympy-based rewrite of bare
arithmetic values, only when `do_expression` is enabled. -/
def expression_match (lib : GPTFunctionLibrary) (function_args : List Char) :
    List Char :=
  if lib.do_expression then lib.exprRewriter function_args else function_args

/-! ### `json.loads(..., strict=False)` -/

/-- A `json.JSONDecodeError`: message and character position. -/
structure JErr where
  msg : String
  pos : Nat
deriving Repr

/-- Fuelled scan for `jskipWS`. -/
def jskipWSGo (cs : List Char) : Nat → Nat → Nat
  | 0, i => i
  | fuel + 1, i =>
    match cs.get? i with
    | some c =>
      if c = ' ' ∨ c = '\t' ∨ c = '\n' ∨ c = '\r' then jskipWSGo cs fuel (i + 1)
      else i
    | none => i

/-- JSON whitespace skip (`[ \t\n\r]*`), returning the next index. -/
def jskipWS (cs : List Char) (i : Nat) : Nat :=
  jskipWSGo cs (cs.length + 1) i

/-- `py_scanstring` with `strict=False` (control characters tolerated):
scan a string body starting right after the opening quote; returns the
parsed string and the index after the closing quote. -/
def jscanString (cs : List Char) (i : Nat) (fuel : Nat) :
    Except JErr (String × Nat) :=
  match fuel with
  | 0 => .error ⟨"Unterminated string starting at", i - 1⟩
  | fuel + 1 =>
    match cs.get? i with
    | none => .error ⟨"Unterminated string starting at", i - 1⟩
    | some '"' => .ok ("", i + 1)
    | some '\\' =>
      match cs.get? (i + 1) with
      | none => .error ⟨"Unterminated string starting at", i - 1⟩
      | some e =>
        let esc : Option Char :=
          if e = '"' then some '"'
          else if e = '\\' then some '\\'
          else if e = '/' then some '/'
          else if e = 'b' then some '\x08'
          else if e = 'f' then some '\x0c'
          else if e = 'n' then some '\n'
          else if e = 'r' then some '\r'
          else if e = 't' then some '\t'
          else none
        match esc with
        | some c =>
          match jscanString cs (i + 2) fuel with
          | .ok (rest, j) => .ok (String.mk (c :: rest.data), j)
          | .error er => .error er
        | none => .error ⟨"Invalid \\escape", i⟩
    | some c =>
      match jscanString cs (i + 1) fuel with
      | .ok (rest, j) => .ok (String.mk (c :: rest.data), j)
      | .error er => .error er

/-- Scan the digits of a nonnegative decimal number starting at `i`. -/
def jscanDigits (cs : List Char) (i : Nat) (fuel : Nat) : List Char × Nat :=
  match fuel with
  | 0 => ([], i)
  | fuel + 1 =>
    match cs.get? i with
    | some c =>
      if c.isDigit then
        let (ds, j) := jscanDigits cs (i + 1) fuel
        (c :: ds, j)
      else ([], i)
    | none => ([], i)

/-- The JSON `NUMBER_RE`: `(-?(?:0|[1-9]\d*))(\.\d+)?([eE][-+]?\d+)?`,
yielding an `int` when no fraction/exponent part is present, else a float
(exact rational in the model). -/
def jscanNumber (cs : List Char) (i : Nat) : Option (JValue × Nat) :=
  let (neg, i1) := if cs.get? i = some '-' then (true, i + 1) else (false, i)
  match cs.get? i1 with
  | some c =>
    if ¬ c.isDigit then none
    else
      let (intDigits, i2) :=
        if c = '0' then ([c], i1 + 1)
        else jscanDigits cs i1 (cs.length + 1)
      let intPart : Int := (digitsToNat intDigits : Int)
      let (fracDigits, i3) :=
        if cs.get? i2 = some '.' then
          let (ds, j) := jscanDigits cs (i2 + 1) (cs.length + 1)
          if ds = [] then ([], i2) else (ds, j)
        else ([], i2)
      let (expVal, i4) :=
        if cs.get? i3 = some 'e' ∨ cs.get? i3 = some 'E' then
          let (esign, j0) :=
            if cs.get? (i3 + 1) = some '-' then ((-1 : Int), i3 + 2)
            else if cs.get? (i3 + 1) = some '+' then ((1 : Int), i3 + 2)
            else ((1 : Int), i3 + 1)
          let (ds, j) := jscanDigits cs j0 (cs.length + 1)
          if ds = [] then ((0 : Int), i3) else (esign * (digitsToNat ds : Int), j)
        else ((0 : Int), i3)
      let sgn : ℚ := if neg then -1 else 1
      if fracDigits = [] ∧ i4 = i2 then
        some (.int (if neg then -intPart else intPart), i2)
      else
        let mantissa : ℚ :=
          (intPart : ℚ) +
            (digitsToNat fracDigits : ℚ) / ((10 : ℚ) ^ fracDigits.length)
        some (.num (sgn * mantissa * (10 : ℚ) ^ expVal), i4)
  | none => none

mutual
/-- `scan_once`: one JSON value starting at index `i` (whitespace already
skipped).  Errors carry CPython's message and position. -/
def jscanValue (cs : List Char) (i : Nat) (fuel : Nat) :
    Except JErr (JValue × Nat) :=
  match fuel with
  | 0 => .error ⟨"Expecting value", i⟩
  | fuel + 1 =>
    match cs.get? i with
    | none => .error ⟨"Expecting value", i⟩
    | some '"' =>
      match jscanString cs (i + 1) (cs.length + 1) with
      | .ok (s, j) => .ok (.str s, j)
      | .error e => .error e
    | some '{' => jscanObject cs (i + 1) fuel
    | some '[' => jscanArray cs (i + 1) fuel
    | some c =>
      if c = 'n' ∧ ['n', 'u', 'l', 'l'].isPrefixOf (cs.drop i) then
        .ok (.null, i + 4)
      else if c = 't' ∧ ['t', 'r', 'u', 'e'].isPrefixOf (cs.drop i) then
        .ok (.bool true, i + 4)
      else if c = 'f' ∧ ['f', 'a', 'l', 's', 'e'].isPrefixOf (cs.drop i) then
        .ok (.bool false, i + 5)
      else
        match jscanNumber cs i with
        | some (v, j) => .ok (v, j)
        | none => .error ⟨"Expecting value", i⟩
  termination_by structural fuel

/-- `JSONObject` of the pure-Python decoder: index `i` points just past the
opening brace. -/
def jscanObject (cs : List Char) (i : Nat) (fuel : Nat) :
    Except JErr (JValue × Nat) :=
  match fuel with
  | 0 => .error ⟨"Expecting property name enclosed in double quotes", i⟩
  | fuel + 1 =>
    let j := if cs.get? i = some '"' then i else jskipWS cs i
    match cs.get? j with
    | some '}' => .ok (.obj [], j + 1)
    | some '"' => jscanMembers cs j fuel []
    | _ => .error ⟨"Expecting property name enclosed in double quotes", j⟩
  termination_by structural fuel

/-- The member loop of `JSONObject`: index `i` points at the opening quote
of the next property name. -/
def jscanMembers (cs : List Char) (i : Nat) (fuel : Nat)
    (acc : List (String × JValue)) : Except JErr (JValue × Nat) :=
  match fuel with
  | 0 => .error ⟨"Expecting property name enclosed in double quotes", i⟩
  | fuel + 1 =>
    match jscanString cs (i + 1) (cs.length + 1) with
    | .error e => .error e
    | .ok (key, j0) =>
      let j1 := if cs.get? j0 = some ':' then j0 else jskipWS cs j0
      if cs.get? j1 ≠ some ':' then .error ⟨"Expecting \x27:\x27 delimiter", j1⟩
      else
        let j2 := jskipWS cs (j1 + 1)
        match jscanValue cs j2 fuel with
        | .error e => .error e
        | .ok (v, j3) =>
          let j4 := jskipWS cs j3
          match cs.get? j4 with
          | some '}' => .ok (.obj (acc ++ [(key, v)]), j4 + 1)
          | some ',' =>
            let j5 := jskipWS cs (j4 + 1)
            if cs.get? j5 = some '"' then
              jscanMembers cs j5 fuel (acc ++ [(key, v)])
            else
              .error ⟨"Expecting property name enclosed in double quotes", j5⟩
          | _ => .error ⟨"Expecting \x27,\x27 delimiter", j4⟩
  termination_by structural fuel

/-- `JSONArray`: index `i` points just past the opening bracket. -/
def jscanArray (cs : List Char) (i : Nat) (fuel : Nat) :
    Except JErr (JValue × Nat) :=
  match fuel with
  | 0 => .error ⟨"Expecting value", i⟩
  | fuel + 1 =>
    let j := jskipWS cs i
    match cs.get? j with
    | some ']' => .ok (.list [], j + 1)
    | _ => jscanItems cs j fuel []
  termination_by structural fuel

/-- The element loop of `JSONArray`: index `i` points at the start of the
next element. -/
def jscanItems (cs : List Char) (i : Nat) (fuel : Nat) (acc : List JValue) :
    Except JErr (JValue × Nat) :=
  match fuel with
  | 0 => .error ⟨"Expecting value", i⟩
  | fuel + 1 =>
    match jscanValue cs i fuel with
    | .error e => .error e
    | .ok (v, j0) =>
      let j1 := jskipWS cs j0
      match cs.get? j1 with
      | some ']' => .ok (.list (acc ++ [v]), j1 + 1)
      | some ',' => jscanItems cs (jskipWS cs (j1 + 1)) fuel (acc ++ [v])
      | _ => .error ⟨"Expecting \x27,\x27 delimiter", j1⟩
  termination_by structural fuel
end

/-- `json.loads(s, strict=False)`: decode one document, then require only
trailing whitespace. -/
def jsonLoads (cs : List Char) : Except JErr JValue :=
  let i0 := jskipWS cs 0
  match jscanValue cs i0 (cs.length + 1) with
  | .error e => .error e
  | .ok (v, j) =>
    let j1 := jskipWS cs j
    if j1 = cs.length then .ok v else .error ⟨"Extra data", j1⟩

/-! ## Dispatch (`parse_name_args`, `convert_args`, `call_by_dict`,
`call_by_dict_async`) -/

/-- The incoming call payload `{name: ..., arguments: ...}`;
`arguments := none` models a missing key or an explicit `None`. -/
structure FunctionCallDict where
  name : String
  arguments : Option JValue := none

/-- `GPTFunctionLibrary.parse_name_args`.  On a JSON decode failure the
source indexes the argument string at the error position (an `IndexError`
when the position is at the end) and then constructs
`ArgDecodeError(..., msg=..., er=e)`; the `msg` keyword travels through
`ArgDecodeError.__init__`'s `**kwargs` into `Exception.__init__`, which
rejects keyword arguments, so the construction itself raises `TypeError`
and no `ArgDecodeError` is ever raised. -/
def parse_name_args (lib : GPTFunctionLibrary) (function_dict : FunctionCallDict) :
    Except PyError (String × JValue) :=
  let function_name := function_dict.name
  if lib.FunctionDict.any (fun e => e.1 = function_name) then
    match function_dict.arguments with
    | some (.str s) =>
      let s1 := pyReplace s.data "\\n".data "\n".data
      let s2 := quoteEscapeFix s1
      let function_args_str := expression_match lib s2
      match jsonLoads function_args_str with
      | .ok v => .ok (function_name, v)
      | .error e =>
        if e.pos < function_args_str.length then
          .error (.typeError "ArgDecodeError() takes no keyword arguments")
        else
          .error (.indexError "string index out of range")
    | some v => .ok (function_name, v)
    | none => .ok (function_name, .null)
  else
    .error (.functionNotFound function_name function_dict.arguments)

/-- `ConvertStatic.schema_validate`: run the converter's `from_schema` and
wrap any raised exception in a `ConversionFromError`. -/
def schema_validate (matcher : String → String → Bool) (param_name : String)
    (value : JValue) (schema : SchemaFragment) (converter : Option ConverterKind) :
    Except PyError JValue :=
  match converter with
  | none => .error (.conversionFrom param_name value "No converter found.")
  | some typename =>
    match conv_from_schema matcher typename value schema with
    | .ok v => .ok v
    | .error e => .error (.conversionFrom param_name value (pyStrOfError e))

/-- Python `i in function_args` for the duck-typed argument container. -/
def pyContains (v : JValue) (i : String) : Except PyError Bool :=
  match v with
  | .obj fields => .ok (fields.any (fun e => e.1 = i))
  | .list xs => .ok (xs.any (fun x => pyEq x (.str i)))
  | .str s => .ok (decide (List.IsInfix i.data s.data))
  | _ => .error (.typeError "argument of type is not iterable")

/-- Python `function_args[i]` with a string index. -/
def pyIndexStr (v : JValue) (i : String) : Except PyError JValue :=
  match v with
  | .obj fields =>
    match alookup fields i with
    | some x => .ok x
    | none => .error (.keyError i)
  | .list _ => .error (.typeError "list indices must be integers or slices, not str")
  | .str _ => .error (.typeError "string indices must be integers")
  | _ => .error (.typeError "object is not subscriptable")

/-- Python `function_args[i] = r` (only reachable for dict arguments);
assignment to an existing key keeps its position. -/
def pySetItem (v : JValue) (i : String) (r : JValue) : JValue :=
  match v with
  | .obj fields =>
    .obj (fields.map (fun e => if e.1 = i then (e.1, r) else e))
  | other => other

/-- Python `len(function_args)`. -/
def pyLen (v : JValue) : Except PyError Nat :=
  match v with
  | .obj fields => .ok fields.length
  | .list xs => .ok xs.length
  | .str s => .ok s.data.length
  | _ => .error (.typeError "object has no len()")

/-- Keyword expansion `f(self, **function_args)`. -/
def kwargsInvoke (f : List (String × JValue) → Except PyError JValue)
    (v : JValue) : Except PyError JValue :=
  match v with
  | .obj fields => f fields
  | _ => .error (.typeError "argument after ** must be a mapping")

/-- The property loop of `LibCommand.convert_args`. -/
def convert_args_go (matcher : String → String → Bool) (cmd : LibCommand) :
    List (String × SchemaFragment) → JValue → Except PyError JValue
  | [], function_args => .ok function_args
  | (i, v) :: rest, function_args => do
    let c ← pyContains function_args i
    if c then do
      let converter := alookup cmd.param_converters i
      match converter with
      | none => .error (.keyError i)
      | some cv => do
        let cur ← pyIndexStr function_args i
        let result ← schema_validate matcher i cur v (some cv)
        convert_args_go matcher cmd rest (pySetItem function_args i result)
    else convert_args_go matcher cmd rest function_args

/-- `LibCommand.convert_args`: validate and convert every argument that has
a property in the schema. -/
def LibCommand.convert_args (matcher : String → String → Bool)
    (cmd : LibCommand) (function_args : JValue) : Except PyError JValue :=
  match cmd.function_schema.parameters with
  | none => .error (.keyError "parameters")
  | some parameters => convert_args_go matcher cmd parameters.properties function_args

/-- `GPTFunctionLibrary.default_callback`.  The source calls
`function_args.replace("\\n", "\n")` on the raw arguments value, which
raises `AttributeError` when that value is not a string; the appended
tail is a non-f-string literal, so the braces are copied verbatim. -/
def default_callback (function_name : String) (function_args : Option JValue) :
    Except PyError JValue :=
  match function_args with
  | some (.str _) =>
    .ok (.str (function_name ++ " is not a valid function." ++
      "\n```\x7bfunction_args\x7d```"))
  | some _ =>
    .error (.attributeError "object has no attribute \x27replace\x27")
  | none =>
    .error (.attributeError
      "\x27NoneType\x27 object has no attribute \x27replace\x27")

/-- `GPTFunctionLibrary.call_by_dict`: parse, catch `GPTLibError`s, then
convert and invoke a synchronous command.  `convert_args` runs outside the
`try` block, so its errors propagate to the caller. -/
def call_by_dict (matcher : String → String → Bool) (lib : GPTFunctionLibrary)
    (function_dict : FunctionCallDict) : Except PyError JValue :=
  match parse_name_args lib function_dict with
  | .error (.functionNotFound n a) => default_callback n a
  | .error e =>
    if isGPTLibError e then .ok (.str (pyStrOfError e)) else .error e
  | .ok (function_name, function_args) =>
    match alookup lib.FunctionDict function_name with
    | none =>
      .error (.attributeError
        ("Method \x27" ++ function_name ++ "\x27 not found or not callable."))
    | some libmethod =>
      if libmethod.comm_type = "callable" then do
        let function_args ← LibCommand.convert_args matcher libmethod function_args
        let n ← pyLen function_args
        if n > 0 then kwargsInvoke libmethod.command function_args
        else libmethod.command []
      else
        .error (.attributeError
          ("Method \x27" ++ function_name ++ "\x27 not found or not callable."))

/-- `GPTFunctionLibrary.call_by_dict_async`: like `call_by_dict`, but a
coroutine command is awaited directly on the parsed arguments, and only the
synchronous branch runs `convert_args`. -/
def call_by_dict_async (matcher : String → String → Bool)
    (lib : GPTFunctionLibrary) (function_dict : FunctionCallDict) :
    Except PyError JValue :=
  match parse_name_args lib function_dict with
  | .error (.functionNotFound n a) => default_callback n a
  | .error e =>
    if isGPTLibError e then .ok (.str (pyStrOfError e)) else .error e
  | .ok (function_name, function_args) =>
    match alookup lib.FunctionDict function_name with
    | none =>
      .error (.attributeError
        ("Method \x27" ++ function_name ++ "\x27 not found or not callable."))
    | some libmethod =>
      if libmethod.comm_type = "coroutine" then do
        let n ← pyLen function_args
        if n > 0 then kwargsInvoke libmethod.asyncr function_args
        else libmethod.asyncr []
      else if libmethod.comm_type = "callable" then do
        let function_args ← LibCommand.convert_args matcher libmethod function_args
        let n ← pyLen function_args
        if n > 0 then kwargsInvoke libmethod.syncr function_args
        else libmethod.syncr []
      else
        .error (.attributeError
          ("Method \x27" ++ function_name ++ "\x27 not found or not callable."))

/-! ## Concrete instances used by witnesses and counterexamples -/

/-- A matcher standing in for `re.match` in concrete runs without pattern
constraints. -/
def trivMatcher : String → String → Bool := fun _ _ => false

/-- Handler of the `get_time` test command: echoes its `comment` argument. -/
def handler1 : List (String × JValue) → Except PyError JValue :=
  fun fields =>
    match alookup fields "comment" with
    | some v => .ok v
    | none => .ok .null

/-- The `get_time` command of the test suite: one described `str` parameter. -/
def cmdGetTime : LibCommand :=
  mkLibCommand builtinSubstitutions handler1 false
    [("self", ⟨Annot.empty, PDefault.empty⟩),
     ("comment", ⟨Annot.named "str", PDefault.empty⟩)]
    (some [("comment", DecV.s "An interesting, amusing remark.")])
    "get_time" "Get the current time and day in UTC." [] [] true false

/-- A library holding only `get_time`. -/
def lib1 : GPTFunctionLibrary := { FunctionDict := [("get_time", cmdGetTime)] }

/-- A synchronous command with an `int` parameter constrained by
`minimum: 0`. -/
def cmdSetInt : LibCommand :=
  mkLibCommand builtinSubstitutions (fun _ => .ok (.str "done")) false
    [("self", ⟨Annot.empty, PDefault.empty⟩),
     ("x", ⟨Annot.named "int", PDefault.empty⟩)]
    (some [("x", DecV.d { description := some "an int", minimum := some 0 })])
    "set_int" "Set an int." [] [] true false

/-- A library holding only `set_int`. -/
def lib3 : GPTFunctionLibrary := { FunctionDict := [("set_int", cmdSetInt)] }

/-- A coroutine command with the same constrained `int` parameter; its
handler returns the keyword arguments it received. -/
def cmdAsync : LibCommand :=
  mkLibCommand builtinSubstitutions (fun fields => .ok (.obj fields)) true
    [("self", ⟨Annot.empty, PDefault.empty⟩),
     ("x", ⟨Annot.named "int", PDefault.empty⟩)]
    (some [("x", DecV.d { description := some "an int", minimum := some 0 })])
    "as_int" "Store an int." [] [] true false

/-- A library holding only the coroutine command. -/
def lib7 : GPTFunctionLibrary := { FunctionDict := [("as_int", cmdAsync)] }

/-! ## Claim-side predicates -/

/-- `key not in dict, or the test holds on dict[key]`: satisfaction of one
optional constraint. -/
def optAll (o : Option α) (p : α → Bool) : Bool :=
  match o with
  | some m => p m
  | none => true

/-- A string value satisfying every constraint advertised by a string-kind
schema fragment. -/
def SatisfiesString (matcher : String → String → Bool)
    (schema : SchemaFragment) (s : String) : Bool :=
  optAll schema.minLength (fun m => m ≤ (s.length : Int)) &&
  optAll schema.maxLength (fun m => (s.length : Int) ≤ m) &&
  optAll schema.pattern (fun p => matcher p s)

/-- A number satisfying every constraint advertised by a numeric schema
fragment (a `multipleOf: 0` constraint is unsatisfiable). -/
def SatisfiesNumeric (schema : SchemaFragment) (q : ℚ) : Bool :=
  optAll schema.minimum (fun m => m ≤ q) &&
  optAll schema.maximum (fun m => q ≤ m) &&
  optAll schema.exclusiveMinimum (fun m => m < q) &&
  optAll schema.exclusiveMaximum (fun m => q < m) &&
  optAll schema.multipleOf (fun m => ¬ (m = 0) && qmod q m = 0)

/-- The claim-side view of an `int`/`float` value. -/
def numOfValue : JValue → Option ℚ
  | .int n => some (n : ℚ)
  | .num q => some q
  | _ => none

/-- A list satisfying every constraint advertised by an array schema
fragment (elements must be hashable for the `uniqueItems` set check). -/
def SatisfiesArray (schema : SchemaFragment) (xs : List JValue) : Bool :=
  optAll schema.minItems (fun m => m ≤ (xs.length : Int)) &&
  optAll schema.maxItems (fun m => (xs.length : Int) ≤ m) &&
  (schema.uniqueItems ≠ some true ||
    (xs.all isHashable && allDistinct xs))

/-- The phrase `w` occurs in `text` as a whole word, case-insensitively:
some occurrence of the case-folded phrase carries a regex word boundary on
both sides. -/
def OccursWholeWord (w text : String) : Prop :=
  ∃ i, (lcs w).isPrefixOf ((lcs text).drop i) ∧
    boundaryAt (lcs text) i = true ∧
    boundaryAt (lcs text) (i + (lcs w).length) = true

/-! ## Shared lemmas -/

theorem any_fst_eq_true_iff (l : List (String × α)) (k : String) :
    (l.any (fun e => e.1 = k) = true) ↔ k ∈ l.map Prod.fst := by
  simp [List.any_eq_true, List.mem_map]

theorem alookup_eq_none_iff (l : List (String × α)) (k : String) :
    alookup l k = none ↔ l.any (fun e => e.1 = k) = false := by
  unfold alookup
  cases h : l.find? (fun e => decide (e.1 = k)) with
  | none =>
    simp only [List.find?_eq_none] at h
    simp only [true_iff]
    rw [← Bool.not_eq_true, List.any_eq_true]
    rintro ⟨e, he, hk⟩
    exact absurd hk (by simpa using h e he)
  | some e =>
    have hp := List.find?_some h
    have hmem := List.mem_of_find?_eq_some h
    simp only [decide_eq_true_eq] at hp
    have : l.any (fun e => decide (e.1 = k)) = true :=
      List.any_eq_true.mpr ⟨e, hmem, by simpa using hp⟩
    simp [this]

/-! ## Claim C10 -/

/-- C10: registering a custom converter raises `ConversionAddError` exactly
when the type name is already present in the registry (the existing entries
are returned unchanged otherwise, with the new mapping appended). -/
theorem c10_add_converter_rejects_duplicates (α : Type) (subs : List (String × α))
    (tn : String) (conv : α) :
    (tn ∈ subs.map Prod.fst →
      add_converter subs tn conv =
        .error (.conversionAdd (tn ++ " already in dictionary!"))) ∧
    (tn ∉ subs.map Prod.fst →
      add_converter subs tn conv = .ok (subs ++ [(tn, conv)])) := by
  unfold add_converter
  constructor
  · intro h
    rw [if_pos ((any_fst_eq_true_iff subs tn).mpr h)]
  · intro h
    rw [if_neg]
    intro hc
    exact h ((any_fst_eq_true_iff subs tn).mp hc)

/-- C10 witness: `str` is already registered and is rejected; `User` is new
and is appended. -/
theorem c10_witness :
    add_converter builtinSubstitutions "str" ConverterKind.stringC =
      .error (.conversionAdd "str already in dictionary!") ∧
    add_converter builtinSubstitutions "User" ConverterKind.stringC =
      .ok (builtinSubstitutions ++ [("User", ConverterKind.stringC)]) :=
  ⟨(c10_add_converter_rejects_duplicates _ builtinSubstitutions "str" _).1 (by decide),
   (c10_add_converter_rejects_duplicates _ builtinSubstitutions "User" _).2 (by decide)⟩

/-! ## Claim C4 -/

/-- C4 counterexample: a string parameter with *no* declared default
(`inspect.Parameter.empty`) and no explicit length constraints gets a schema
with no `minLength`/`maxLength` keys at all — the 0/255 defaults are only
attached when the declared default value is literally `None`. -/
theorem c4_counterexample :
    (StringConverter_to_schema ⟨Annot.named "str", PDefault.empty⟩ {}).minLength = none ∧
    (StringConverter_to_schema ⟨Annot.named "str", PDefault.empty⟩ {}).maxLength = none :=
  ⟨rfl, rfl⟩

/-- C4 (amended): explicit `minLength`/`maxLength` constraints are copied
verbatim; without them, the `minLength = 0` / `maxLength = 255` defaults are
emitted iff the parameter's declared default value is `None`
(`param.default is None`), not when the parameter lacks a default. -/
theorem c4_string_length_defaults (param : Param) (dec : DecSpec) :
    ((dec.minLength = none ∧ dec.maxLength = none) →
      ((StringConverter_to_schema param dec).minLength,
       (StringConverter_to_schema param dec).maxLength) =
        (if param.default = PDefault.pynone then (some 0, some 255)
         else (none, none))) ∧
    (∀ a, dec.minLength = some a →
      (StringConverter_to_schema param dec).minLength = some a) ∧
    (∀ b, dec.maxLength = some b →
      (StringConverter_to_schema param dec).maxLength = some b) := by
  unfold StringConverter_to_schema
  refine ⟨?_, ?_, ?_⟩
  · rintro ⟨h1, h2⟩
    by_cases hp : param.default = PDefault.pynone <;>
      cases hpat : dec.pattern <;>
        simp [h1, h2, hp, hpat, Option.getD]
  · intro a ha
    cases hpat : dec.pattern <;>
      simp [ha, hpat, Option.getD] <;>
      split <;> rfl
  · intro b hb
    by_cases hmin : dec.minLength.isSome ∨ param.default = PDefault.pynone <;>
      cases hpat : dec.pattern <;>
        simp [hb, hmin, hpat, Option.getD]

/-- C4 witness: default `None` yields the 0/255 defaults; no default yields
no keys; an explicit `minLength` is copied. -/
theorem c4_witness :
    (StringConverter_to_schema ⟨Annot.named "str", PDefault.pynone⟩ {}).minLength = some 0 ∧
    (StringConverter_to_schema ⟨Annot.named "str", PDefault.pynone⟩ {}).maxLength = some 255 ∧
    (StringConverter_to_schema ⟨Annot.named "str", PDefault.empty⟩
        { minLength := some 5 }).minLength = some 5 := by
  have h1 := (c4_string_length_defaults ⟨Annot.named "str", PDefault.pynone⟩ {}).1
    ⟨rfl, rfl⟩
  rw [if_pos rfl] at h1
  have h2 := (c4_string_length_defaults ⟨Annot.named "str", PDefault.empty⟩
    { minLength := some 5 }).2.1 5 rfl
  exact ⟨(Prod.ext_iff.mp h1).1, (Prod.ext_iff.mp h1).2, h2⟩

/-! ## Claim C2 -/

/-- C2: dispatching a registered command with an argument string that fails
JSON decoding does not return a stringified `ArgDecodeError`; the
`ArgDecodeError(..., msg=..., er=...)` construction in `parse_name_args`
forwards the `msg` keyword through `**kwargs` into `Exception.__init__`,
which rejects keyword arguments, so the dispatcher raises `TypeError`. -/
theorem c2_decode_failure_raises_typeerror :
    call_by_dict trivMatcher lib1 ⟨"get_time", some (.str "\x7d")⟩ =
      .error (.typeError "ArgDecodeError() takes no keyword arguments") := by
  rfl

/-! ## Claim C1 -/

/-- C1 counterexample: an unknown name accompanied by a *dict* arguments
value makes `default_callback` call `.replace` on a dict, raising
`AttributeError` out of `call_by_dict` — so the dispatcher does not return a
fallback string for every arguments value. -/
theorem c1_counterexample :
    call_by_dict trivMatcher lib1 ⟨"nope", some (.obj [])⟩ =
      .error (.attributeError "object has no attribute \x27replace\x27") := rfl

/-- C1 (amended): for an unregistered name whose arguments value is a
string, `call_by_dict` returns (never raises) a string containing
"is not a valid function". -/
theorem c1_unknown_name_fallback (matcher : String → String → Bool)
    (lib : GPTFunctionLibrary) (name s : String)
    (h : alookup lib.FunctionDict name = none) :
    ∃ r, call_by_dict matcher lib ⟨name, some (.str s)⟩ = .ok (.str r) ∧
      List.IsInfix "is not a valid function".data r.data := by
  have hany : lib.FunctionDict.any (fun e => e.1 = name) = false :=
    (alookup_eq_none_iff _ _).mp h
  have hp : parse_name_args lib ⟨name, some (.str s)⟩ =
      .error (.functionNotFound name (some (.str s))) := by
    unfold parse_name_args
    simp [hany]
  refine ⟨name ++ " is not a valid function." ++ "\n```\x7bfunction_args\x7d```",
    ?_, ?_⟩
  · unfold call_by_dict
    rw [hp]
    rfl
  · have hmid : ("is not a valid function" : String).data <:+:
        (" is not a valid function." ++ "\n```\x7bfunction_args\x7d```" : String).data := by
      decide
    have hsfx : (" is not a valid function." ++ "\n```\x7bfunction_args\x7d```" :
        String).data <:+:
        (name ++ " is not a valid function." ++ "\n```\x7bfunction_args\x7d```").data := by
      have : (name ++ " is not a valid function." ++ "\n```\x7bfunction_args\x7d```").data =
          name.data ++ (" is not a valid function." ++
            "\n```\x7bfunction_args\x7d```").data := by
        simp [String.data_append, List.append_assoc]
      rw [this]
      exact (List.suffix_append _ _).isInfix
    exact hmid.trans hsfx

/-- C1 witness: the unknown name `nope` with the string arguments `{}`
yields an ok fallback string containing "is not a valid function". -/
theorem c1_witness :
    alookup lib1.FunctionDict "nope" = none ∧
    ∃ r, call_by_dict trivMatcher lib1 ⟨"nope", some (.str "\x7b\x7d")⟩ =
      .ok (.str r) ∧ List.IsInfix "is not a valid function".data r.data :=
  ⟨rfl, c1_unknown_name_fallback trivMatcher lib1 "nope" "\x7b\x7d" rfl⟩

/-! ## Claim C3 -/

/-- C3 counterexample: a validation failure at call time makes
`call_by_dict` *raise* the `ConversionFromError` (the `convert_args` call
sits outside the dispatcher's `try` block), instead of returning its
stringified form as the result. -/
theorem c3_counterexample :
    call_by_dict trivMatcher lib3 ⟨"set_int", some (.obj [("x", .int (-5))])⟩ =
      .error (.conversionFrom "x" (.int (-5))
        "Value is below the minimum constraint.") := rfl

/-- C3 (amended): when parsing succeeds, the command is synchronous and
`convert_args` fails, the `ConversionFromError` propagates out of
`call_by_dict` to the caller — it is not caught at the dispatcher boundary. -/
theorem c3_conversion_error_propagates (matcher : String → String → Bool)
    (lib : GPTFunctionLibrary) (fd : FunctionCallDict) (name : String)
    (args : JValue) (cmd : LibCommand) (e : PyError)
    (hp : parse_name_args lib fd = .ok (name, args))
    (hl : alookup lib.FunctionDict name = some cmd)
    (hc : cmd.comm_type = "callable")
    (he : LibCommand.convert_args matcher cmd args = .error e) :
    call_by_dict matcher lib fd = .error e := by
  unfold call_by_dict
  rw [hp]
  simp only [hl, hc, if_pos]
  rw [he]
  rfl

/-- C3 witness: the concrete propagation at `lib3`. -/
theorem c3_witness :
    call_by_dict trivMatcher lib3 ⟨"set_int", some (.obj [("x", .int (-5))])⟩ =
      .error (.conversionFrom "x" (.int (-5))
        "Value is below the minimum constraint.") :=
  c3_conversion_error_propagates trivMatcher lib3
    ⟨"set_int", some (.obj [("x", .int (-5))])⟩ "set_int"
    (.obj [("x", .int (-5))]) cmdSetInt
    (.conversionFrom "x" (.int (-5)) "Value is below the minimum constraint.")
    rfl rfl rfl rfl

/-! ## Claim C6 -/

theorem get_schema_go_eq (l : List (String × LibCommand)) :
    get_schema.go l =
      (l.filter (fun e => e.2.enabled && e.2.function_schema.parameters.isSome)).map
        (fun e => e.2.function_schema) := by
  induction l with
  | nil => rfl
  | cons e rest ih =>
    by_cases h1 : e.2.enabled <;>
      by_cases h2 : e.2.function_schema.parameters.isSome <;>
        simp [get_schema.go, h1, h2, ih, List.filter_cons]

theorem get_tool_schema_go_eq (l : List (String × LibCommand)) :
    get_tool_schema.go l =
      (get_schema.go l).map (fun s => { type := "function", function := s }) := by
  induction l with
  | nil => rfl
  | cons e rest ih =>
    by_cases h1 : e.2.enabled <;>
      by_cases h2 : e.2.function_schema.parameters.isSome <;>
        simp [get_schema.go, get_tool_schema.go, h1, h2, ih]

/-- C6: `get_schema` returns, in registration order, exactly the schema
documents of the enabled commands whose document carries a parameters
object (the constructor always builds one, with at least its `type`,
`properties` and `required` entries, so presence coincides with
non-emptiness); `get_tool_schema` is the same list wrapped in the
`{type: "function", function: schema}` envelope; disabled commands are
excluded from both. -/
theorem c6_get_schema_enabled_and_wrapped (lib : GPTFunctionLibrary) :
    get_schema lib =
      (lib.FunctionDict.filter
        (fun e => e.2.enabled && e.2.function_schema.parameters.isSome)).map
        (fun e => e.2.function_schema) ∧
    get_tool_schema lib =
      (get_schema lib).map (fun s => { type := "function", function := s }) := by
  constructor
  · exact get_schema_go_eq lib.FunctionDict
  · show get_tool_schema.go lib.FunctionDict =
      (get_schema.go lib.FunctionDict).map _
    exact get_tool_schema_go_eq lib.FunctionDict

/-! ## Claim C7 -/

/-- C7: a coroutine-kind command dispatched through `call_by_dict_async` is
awaited on the argument mapping exactly as produced by the parser —
`convert_args` is consulted only on the synchronous branch, so a failing
field still reaches an asynchronous handler unvalidated. -/
theorem c7_async_bypasses_validation (matcher : String → String → Bool)
    (lib : GPTFunctionLibrary) (fd : FunctionCallDict) (name : String)
    (fields : List (String × JValue)) (cmd : LibCommand)
    (hp : parse_name_args lib fd = .ok (name, .obj fields))
    (hl : alookup lib.FunctionDict name = some cmd) :
    (cmd.comm_type = "coroutine" →
      call_by_dict_async matcher lib fd = cmd.asyncr fields) ∧
    (cmd.comm_type = "callable" → ∀ e,
      LibCommand.convert_args matcher cmd (.obj fields) = .error e →
      call_by_dict_async matcher lib fd = .error e) := by
  constructor
  · intro hc
    unfold call_by_dict_async
    rw [hp]
    simp only [hl, hc, if_pos]
    show (do
      let n ← pyLen (.obj fields)
      if n > 0 then kwargsInvoke cmd.asyncr (.obj fields) else cmd.asyncr []) =
      cmd.asyncr fields
    by_cases hn : fields.length > 0
    · show (do
        let n ← Except.ok fields.length
        if n > 0 then cmd.asyncr fields else cmd.asyncr []) = cmd.asyncr fields
      simp only [bind, Except.bind]
      rw [if_pos hn]
    · have hz : fields = [] := List.length_eq_zero.mp (by omega)
      subst hz
      rfl
  · intro hc e he
    unfold call_by_dict_async
    rw [hp]
    have hne : ¬ (cmd.comm_type = "coroutine") := by rw [hc]; decide
    simp only [hl, hc, hne, if_pos, if_neg, if_false]
    rw [he]
    rfl

/-- C7 witness: the value `-5` violates the declared `minimum: 0` but is
delivered to the asynchronous handler unconverted, which echoes it back. -/
theorem c7_witness :
    call_by_dict_async trivMatcher lib7
        ⟨"as_int", some (.obj [("x", .int (-5))])⟩ =
      .ok (.obj [("x", .int (-5))]) := by
  have h := (c7_async_bypasses_validation trivMatcher lib7
    ⟨"as_int", some (.obj [("x", .int (-5))])⟩ "as_int" [("x", .int (-5))]
    cmdAsync rfl rfl).1 rfl
  rw [h]
  rfl

/-! ## Claim C5 -/

theorem alookup_cons (n : String) (p : α) (rest : List (String × α)) (k : String) :
    alookup ((n, p) :: rest) k = if n = k then some p else alookup rest k := by
  unfold alookup
  by_cases h : n = k <;> simp [List.find?_cons, h]

theorem param_go_req_subset (registry : List (String × ConverterKind))
    (decorators : List (String × DecV)) (forced : List String) :
    ∀ (l : List (String × Param)) (pname : String),
      pname ∈ (param_iterate_go registry decorators forced l).2.1 →
      pname ∈ l.map Prod.fst := by
  intro l
  induction l with
  | nil => intro pname h; simp [param_iterate_go] at h
  | cons e rest ih =>
    obtain ⟨n, p⟩ := e
    intro pname h
    simp only [param_iterate_go] at h
    cases hps : parameter_into_schema registry n p
        ((alookup decorators n).getD (DecV.s "")) with
    | none =>
      rw [hps] at h
      simpa using Or.inr (ih pname h)
    | some pr =>
      rw [hps] at h
      simp only [List.map_cons, List.mem_cons]
      by_cases hc : p.default = PDefault.empty ∨ n ∈ forced
      · rw [if_pos hc] at h
        rcases List.mem_cons.mp h with h1 | h2
        · exact Or.inl h1
        · exact Or.inr (ih pname h2)
      · rw [if_neg hc] at h
        exact Or.inr (ih pname h)

theorem param_go_props_subset (registry : List (String × ConverterKind))
    (decorators : List (String × DecV)) (forced : List String) :
    ∀ (l : List (String × Param)) (pname : String),
      pname ∈ (param_iterate_go registry decorators forced l).1.map Prod.fst →
      pname ∈ l.map Prod.fst := by
  intro l
  induction l with
  | nil => intro pname h; simp [param_iterate_go] at h
  | cons e rest ih =>
    obtain ⟨n, p⟩ := e
    intro pname h
    simp only [param_iterate_go] at h
    cases hps : parameter_into_schema registry n p
        ((alookup decorators n).getD (DecV.s "")) with
    | none =>
      rw [hps] at h
      simpa using Or.inr (ih pname h)
    | some pr =>
      rw [hps] at h
      simp only [List.map_cons, List.mem_cons] at h ⊢
      rcases h with h1 | h2
      · exact Or.inl h1
      · exact Or.inr (ih pname h2)

/-- C5: a parameter that made it into the generated schema's `properties`
appears in the schema's `required` list iff it has no default value
(`inspect.Parameter.empty`) or its name is in the forced-required list. -/
theorem c5_required_iff (registry : List (String × ConverterKind))
    (decorators : List (String × DecV)) (forced : List String)
    (params : List (String × Param)) (pname : String) (param : Param)
    (hnd : (params.map Prod.fst).Nodup)
    (hlk : alookup params pname = some param)
    (hmem : pname ∈
      (param_iterate registry params (some decorators) forced).1.map Prod.fst) :
    pname ∈ (param_iterate registry params (some decorators) forced).2.1 ↔
      (param.default = PDefault.empty ∨ pname ∈ forced) := by
  show pname ∈ (param_iterate_go registry decorators forced params).2.1 ↔ _
  replace hmem : pname ∈
      (param_iterate_go registry decorators forced params).1.map Prod.fst := hmem
  induction params with
  | nil => simp [alookup] at hlk
  | cons e rest ih =>
    obtain ⟨n, p⟩ := e
    rw [alookup_cons] at hlk
    simp only [List.map_cons, List.nodup_cons] at hnd
    by_cases hn : n = pname
    · subst hn
      rw [if_pos rfl] at hlk
      injection hlk with hlk
      subst hlk
      simp only [param_iterate_go] at hmem ⊢
      cases hps : parameter_into_schema registry n p
          ((alookup decorators n).getD (DecV.s "")) with
      | none =>
        simp only [hps] at hmem
        exact absurd (param_go_props_subset registry decorators forced rest n hmem)
          hnd.1
      | some pr =>
        obtain ⟨info, conv⟩ := pr
        simp only [hps] at hmem ⊢
        by_cases hc : p.default = PDefault.empty ∨ n ∈ forced
        · rw [if_pos hc]
          simp [hc]
        · rw [if_neg hc]
          constructor
          · intro h
            exact absurd (param_go_req_subset registry decorators forced rest n h)
              hnd.1
          · intro h
            exact absurd h hc
    · rw [if_neg hn] at hlk
      simp only [param_iterate_go] at hmem ⊢
      cases hps : parameter_into_schema registry n p
          ((alookup decorators n).getD (DecV.s "")) with
      | none =>
        simp only [hps] at hmem
        exact ih hnd.2 hlk hmem
      | some pr =>
        obtain ⟨info, conv⟩ := pr
        simp only [hps] at hmem ⊢
        have hpm : pname ∈
            (param_iterate_go registry decorators forced rest).1.map Prod.fst := by
          simp only [List.map_cons, List.mem_cons] at hmem
          rcases hmem with h1 | h2
          · exact absurd h1.symm hn
          · exact h2
        by_cases hc : p.default = PDefault.empty ∨ n ∈ forced
        · rw [if_pos hc]
          rw [List.mem_cons]
          constructor
          · intro h
            rcases h with h1 | h2
            · exact absurd h1.symm hn
            · exact (ih hnd.2 hlk hpm).mp h2
          · intro h
            exact Or.inr ((ih hnd.2 hlk hpm).mpr h)
        · rw [if_neg hc]
          exact ih hnd.2 hlk hpm

/-- C5 witness: in the `set_int` signature, the described parameter `x` has
no default and lands in `required`. -/
theorem c5_witness :
    "x" ∈ (param_iterate builtinSubstitutions
      [("self", ⟨Annot.empty, PDefault.empty⟩),
       ("x", ⟨Annot.named "int", PDefault.empty⟩)]
      (some [("x", DecV.d { description := some "an int", minimum := some 0 })])
      []).2.1 :=
  (c5_required_iff builtinSubstitutions
    [("x", DecV.d { description := some "an int", minimum := some 0 })] []
    [("self", ⟨Annot.empty, PDefault.empty⟩),
     ("x", ⟨Annot.named "int", PDefault.empty⟩)]
    "x" ⟨Annot.named "int", PDefault.empty⟩
    (by decide) rfl (by decide)).mpr (Or.inl rfl)

/-! ## Claim C8 -/

theorem boundaryAt_le (cs : List Char) (i : Nat) (h : boundaryAt cs i = true) :
    i ≤ cs.length := by
  by_contra hgt
  push_neg at hgt
  match i, hgt with
  | j + 1, hgt =>
    have h1 : cs[j]? = none := List.getElem?_eq_none (by omega)
    have h2 : cs[j + 1]? = none := List.getElem?_eq_none (by omega)
    simp [boundaryAt, wordAt, h1, h2] at h

theorem searchWordBounded_iff (cs ps : List Char) :
    searchWordBounded cs ps = true ↔
      ∃ i, ps.isPrefixOf (cs.drop i) ∧ boundaryAt cs i = true ∧
        boundaryAt cs (i + ps.length) = true := by
  unfold searchWordBounded
  rw [List.any_eq_true]
  constructor
  · rintro ⟨i, _, h⟩
    simp only [Bool.and_eq_true] at h
    exact ⟨i, h.1.1, h.1.2, h.2⟩
  · rintro ⟨i, h1, h2, h3⟩
    refine ⟨i, List.mem_range.mpr ?_, ?_⟩
    · have := boundaryAt_le cs i h2
      omega
    · simp only [Bool.and_eq_true]
      exact ⟨⟨h1, h2⟩, h3⟩

theorem fwc_go_eq (query : String) (l : List (String × LibCommand)) :
    force_word_check.go query l =
      (l.find? (fun e => check_force e.2 query)).map
        (fun e => [{ type := "function", function := e.2.function_schema }]) := by
  induction l with
  | nil => rfl
  | cons e rest ih =>
    obtain ⟨n, comm⟩ := e
    by_cases h : check_force comm query <;>
      simp [force_word_check.go, List.find?_cons, h, ih]

/-- C8: `check_force` succeeds exactly when some registered force phrase
occurs in the query as a whole word (word boundaries on each side),
case-insensitively; and `force_word_check` returns the tool-wrapped schema
of the first (earliest-registered) command whose `check_force` matches, or
nothing when none matches. -/
theorem c8_force_word_matching :
    (∀ (cmd : LibCommand) (query : String),
      check_force cmd query = true ↔
        ∃ w ∈ cmd.force_words, OccursWholeWord w query) ∧
    (∀ (lib : GPTFunctionLibrary) (query : String),
      force_word_check lib query =
        (lib.FunctionDict.find? (fun e => check_force e.2 query)).map
          (fun e => [{ type := "function", function := e.2.function_schema }])) := by
  constructor
  · intro cmd query
    unfold check_force
    by_cases hfw : cmd.force_words = []
    · simp [hfw]
    · rw [if_pos hfw, List.any_eq_true]
      constructor
      · rintro ⟨w, hw, hs⟩
        exact ⟨w, hw, (searchWordBounded_iff _ _).mp hs⟩
      · rintro ⟨w, hw, ho⟩
        exact ⟨w, hw, (searchWordBounded_iff _ _).mpr ho⟩
  · intro lib query
    exact fwc_go_eq query lib.FunctionDict

/-! ## Claim C9 -/

theorem optTest_eq_false {o : Option α} {p q : α → Bool} (h : optAll o p = true)
    (himp : ∀ x, p x = true → q x = false) : optTest o q = false := by
  cases o with
  | none => rfl
  | some m =>
    simp only [optAll] at h
    simp only [optTest]
    exact himp m h

theorem string_from_ok (matcher : String → String → Bool)
    (schema : SchemaFragment) (s : String)
    (h : SatisfiesString matcher schema s = true) :
    StringConverter_from_schema matcher (.str s) schema = .ok (.str s) := by
  unfold SatisfiesString at h
  simp only [Bool.and_eq_true] at h
  obtain ⟨⟨h1, h2⟩, h3⟩ := h
  have e1 : optTest schema.minLength (fun m => (s.length : Int) < m) = false :=
    optTest_eq_false h1 (fun m hm => by simp at hm ⊢; omega)
  have e2 : optTest schema.maxLength (fun m => (s.length : Int) > m) = false :=
    optTest_eq_false h2 (fun m hm => by simp at hm ⊢; omega)
  have e3 : optTest schema.pattern (fun p => !(matcher p s)) = false :=
    optTest_eq_false h3 (fun p hp => by simp at hp ⊢; exact hp)
  unfold StringConverter_from_schema
  simp [e1, e2, e3]

theorem numeric_from_ok (schema : SchemaFragment) (v : JValue) (q : ℚ)
    (hv : numOfValue v = some q) (h : SatisfiesNumeric schema q = true) :
    NumericConverter_from_schema v schema = .ok v := by
  have hnv : numView v = some q := by
    cases v <;> simp [numOfValue] at hv <;> simp [numView, hv]
  unfold SatisfiesNumeric at h
  simp only [Bool.and_eq_true] at h
  obtain ⟨⟨⟨⟨hmin, hmax⟩, hemin⟩, hemax⟩, hmul⟩ := h
  have e1 : optTest schema.minimum (fun m => q < m) = false :=
    optTest_eq_false hmin (fun m hm => by simp at hm ⊢; linarith)
  have e2 : optTest schema.maximum (fun m => q > m) = false :=
    optTest_eq_false hmax (fun m hm => by simp at hm ⊢; linarith)
  have e3 : optTest schema.exclusiveMinimum (fun m => q ≤ m) = false :=
    optTest_eq_false hemin (fun m hm => by simp at hm ⊢; linarith)
  have e4 : optTest schema.exclusiveMaximum (fun m => q ≥ m) = false :=
    optTest_eq_false hemax (fun m hm => by simp at hm ⊢; linarith)
  unfold NumericConverter_from_schema
  rw [hnv]
  cases hmo : schema.multipleOf with
  | none => simp [e1, e2, e3, e4, hmo]
  | some m =>
    rw [hmo] at hmul
    simp only [optAll, Bool.and_eq_true] at hmul
    obtain ⟨hm0, hmz⟩ := hmul
    simp only [decide_eq_true_eq] at hmz
    have hm0' : ¬ (m = 0) := by simpa using hm0
    simp [e1, e2, e3, e4, hmo, hm0', hmz]

theorem datetime_from_ok (matcher : String → String → Bool)
    (schema : SchemaFragment) (s : String) (d : PyDatetime)
    (hs : SatisfiesString matcher schema s = true)
    (hf : schema.format = some "date-time")
    (hp : parseDatetime s.data = some d) :
    DatetimeConverter_from_schema matcher (.str s) schema = .ok (.dt d) := by
  unfold DatetimeConverter_from_schema
  rw [string_from_ok matcher schema s hs]
  simp only [bind, Except.bind, hf, hp]
  simp

theorem array_from_ok (schema : SchemaFragment) (xs : List JValue)
    (h : SatisfiesArray schema xs = true) :
    ArrayConverter_from_schema (.list xs) schema = .ok (.list xs) := by
  unfold SatisfiesArray at h
  simp only [Bool.and_eq_true] at h
  obtain ⟨⟨h1, h2⟩, h3⟩ := h
  have e1 : optTest schema.minItems (fun m => (xs.length : Int) < m) = false :=
    optTest_eq_false h1 (fun m hm => by simp at hm ⊢; omega)
  have e2 : optTest schema.maxItems (fun m => (xs.length : Int) > m) = false :=
    optTest_eq_false h2 (fun m hm => by simp at hm ⊢; omega)
  unfold ArrayConverter_from_schema
  by_cases hu : schema.uniqueItems = some true
  · rw [hu] at h3
    simp only [Bool.or_eq_true, Bool.and_eq_true] at h3
    rcases h3 with h3 | ⟨hall, hdis⟩
    · simp at h3
    · have hany : xs.any (fun x => !(isHashable x)) = false := by
        rw [← Bool.not_eq_true, List.any_eq_true]
        rintro ⟨x, hx, hnh⟩
        have := (List.all_eq_true.mp hall) x hx
        simp at hnh
        rw [hnh] at this
        simp at this
      simp [e1, e2, hu, hany, hdis]
  · simp [e1, e2, hu]

theorem literal_from_ok (schema : SchemaFragment) (s : String)
    (es : List String) (he : schema.enum = some es) (hs : s ∈ es) :
    LiteralConverter_from_schema (.str s) schema = .ok (.str s) := by
  unfold LiteralConverter_from_schema
  rw [he]
  simp [hs]

/-- C9: for every built-in converter, a value meeting every constraint of the
schema fragment produced by `to_schema` is accepted by `from_schema` on that
same fragment and returned unchanged — with the date-time converter instead
returning the date-time parsed from the string value. -/
theorem c9_roundtrip :
    (∀ (matcher : String → String → Bool) (param : Param) (dec : DecSpec)
        (s : String),
      SatisfiesString matcher (StringConverter_to_schema param dec) s = true →
      StringConverter_from_schema matcher (.str s)
        (StringConverter_to_schema param dec) = .ok (.str s)) ∧
    (∀ (param : Param) (dec : DecSpec) (b : Bool),
      BooleanConverter_from_schema (.bool b) (BooleanConverter_to_schema param dec) =
        .ok (.bool b)) ∧
    (∀ (param : Param) (dec : DecSpec) (v : JValue) (q : ℚ),
      numOfValue v = some q →
      SatisfiesNumeric (NumericConverter_to_schema param dec) q = true →
      NumericConverter_from_schema v (NumericConverter_to_schema param dec) =
        .ok v) ∧
    (∀ (matcher : String → String → Bool) (param : Param) (dec : DecSpec)
        (s : String) (d : PyDatetime),
      SatisfiesString matcher (DatetimeConverter_to_schema param dec) s = true →
      parseDatetime s.data = some d →
      DatetimeConverter_from_schema matcher (.str s)
        (DatetimeConverter_to_schema param dec) = .ok (.dt d)) ∧
    (∀ (param : Param) (dec : DecSpec) (xs : List JValue),
      SatisfiesArray (ArrayConverter_to_schema param dec) xs = true →
      ArrayConverter_from_schema (.list xs) (ArrayConverter_to_schema param dec) =
        .ok (.list xs)) ∧
    (∀ (param : Param) (dec : DecSpec) (vals : List String) (s : String),
      param.annot = Annot.literalOf vals → s ∈ vals →
      LiteralConverter_from_schema (.str s) (LiteralConverter_to_schema param dec) =
        .ok (.str s)) := by
  refine ⟨?_, ?_, ?_, ?_, ?_, ?_⟩
  · intro matcher param dec s h
    exact string_from_ok matcher _ s h
  · intro param dec b
    rfl
  · intro param dec v q hv h
    exact numeric_from_ok _ v q hv h
  · intro matcher param dec s d hs hp
    exact datetime_from_ok matcher _ s d hs rfl hp
  · intro param dec xs h
    exact array_from_ok _ xs h
  · intro param dec vals s hannot hs
    refine literal_from_ok _ s vals ?_ hs
    simp [LiteralConverter_to_schema, updateFragment, hannot]

/-- C9 witness: one concrete round trip per built-in converter, including
the test suite's numeric constraints and the date-time example. -/
theorem c9_witness :
    StringConverter_from_schema trivMatcher (.str "hi")
      (StringConverter_to_schema ⟨Annot.named "str", PDefault.empty⟩ {}) =
        .ok (.str "hi") ∧
    BooleanConverter_from_schema (.bool true)
      (BooleanConverter_to_schema ⟨Annot.named "bool", PDefault.empty⟩ {}) =
        .ok (.bool true) ∧
    NumericConverter_from_schema (.int 5)
      (NumericConverter_to_schema ⟨Annot.named "int", PDefault.empty⟩
        { minimum := some 0, maximum := some 10, exclusiveMinimum := some (-1),
          exclusiveMaximum := some 11, multipleOf := some 5 }) = .ok (.int 5) ∧
    DatetimeConverter_from_schema trivMatcher (.str "2018-11-13T20:20:39+00:00")
      (DatetimeConverter_to_schema ⟨Annot.named "datetime", PDefault.empty⟩ {}) =
        .ok (.dt ⟨2018, 11, 13, 20, 20, 39, 0⟩) ∧
    ArrayConverter_from_schema (.list [.int 1, .int 2])
      (ArrayConverter_to_schema ⟨Annot.listOf (Annot.named "int"), PDefault.empty⟩
        { minItems := some 1, maxItems := some 5, uniqueItems := some true }) =
        .ok (.list [.int 1, .int 2]) ∧
    LiteralConverter_from_schema (.str "a")
      (LiteralConverter_to_schema ⟨Annot.literalOf ["a", "b"], PDefault.empty⟩ {}) =
        .ok (.str "a") :=
  ⟨c9_roundtrip.1 trivMatcher ⟨Annot.named "str", PDefault.empty⟩ {} "hi" rfl,
   c9_roundtrip.2.1 ⟨Annot.named "bool", PDefault.empty⟩ {} true,
   c9_roundtrip.2.2.1 ⟨Annot.named "int", PDefault.empty⟩ _ (.int 5) 5 rfl
     (by norm_num [SatisfiesNumeric, NumericConverter_to_schema, optAll, qmod,
       Rat.floor_def']),
   c9_roundtrip.2.2.2.1 trivMatcher ⟨Annot.named "datetime", PDefault.empty⟩ {}
     "2018-11-13T20:20:39+00:00" ⟨2018, 11, 13, 20, 20, 39, 0⟩ rfl rfl,
   c9_roundtrip.2.2.2.2.1 ⟨Annot.listOf (Annot.named "int"), PDefault.empty⟩ _
     [.int 1, .int 2] rfl,
   c9_roundtrip.2.2.2.2.2 ⟨Annot.literalOf ["a", "b"], PDefault.empty⟩ {} ["a", "b"]
     "a" rfl (by decide)⟩
